import Mathlib

/-!
Verification development for the markdown-notes LLM conversation gateway.

The definitions below are a shallow embedding of the Python source under
`src/mdnmcp/llmconversation/`:

* `datamodel.py` — the item / exchange / conversation data model,
* `service.py` — the orchestration service (broadcast fan-out, conversation
  registry, provider selection, tool-call dispatch),
* `tool_ping.py` — the single ping tool (argument parsing, sanitization),
* `provider/v1response.py`, `provider/v1chatcompletition.py`,
  `provider/v1messages.py` — the three streaming wire-protocol adapters,
* `handler_web.py` — the websocket attach flow.

Conventions of the embedding:

* Python is dynamically typed; the `error` field of a function-call item is
  assigned both strings and booleans by the source, so it is modelled by the
  dynamic value type `PyVal`.
* Exceptions escaping a modelled code path are represented with
  `Except PyError`; a Python function that returns normally yields `.ok`.
* External effects (the JSON parser of the standard library, HTTP responses,
  vendor stream lines, subprocess behaviour, monitor callbacks) are inputs of
  the embedded functions: each is represented by a small inductive describing
  the outcome the external world produced, so the control flow of the source
  stays fully explicit.
* Identifier generation (uuid keys) and timestamps are external as well; keys
  and creation times are plain string fields fixed at item creation.
-/

namespace MdnMcp

/-- Dynamic Python value stored in the dynamically-typed `error` attribute of
a function-call item (the source assigns it both `str` and `bool` values). -/
inductive PyVal where
  | pyBool (b : Bool)
  | pyStr (s : String)
deriving DecidableEq, Repr

/-- Exception classes that the modelled code paths can raise. -/
inductive PyError where
  | typeError (msg : String)
  | assertionError
  | indexError
  | keyError
  | nameError
  | jsonDecodeError
deriving DecidableEq, Repr

/-! ## Data model (`datamodel.py`) -/

/-- UserMessage (datamodel.py): role, text content, selected model. -/
structure UserMessage where
  role : String
  content : String
  model : String
  key : String
  created_at : String
deriving DecidableEq, Repr

/-- AssistentReasoning (datamodel.py): accumulating reasoning text. -/
structure AssistentReasoning where
  content : String
  status : String
  key : String
  created_at : String
deriving DecidableEq, Repr

/-- AssistentMessage (datamodel.py): accumulating assistant text. -/
structure AssistentMessage where
  content : String
  status : String
  role : String
  key : String
  created_at : String
deriving DecidableEq, Repr

/-- FunctionCall (datamodel.py): call id, name, accumulating arguments,
status, accumulating result content and the dynamically-typed error field. -/
structure FunctionCall where
  call_id : String
  name : String
  arguments : String
  status : String
  content : String := ""
  error : PyVal := .pyBool false
  key : String
  created_at : String
deriving DecidableEq, Repr

/-- The item union stored in `Exchange.items` (datamodel.py). -/
inductive Item where
  | user (u : UserMessage)
  | reasoning (r : AssistentReasoning)
  | message (m : AssistentMessage)
  | functionCall (f : FunctionCall)
deriving DecidableEq, Repr

/-- The `type` literal of each item class: UserMessage and AssistentMessage
both carry `type = \x27message\x27` in the source. -/
def Item.type : Item → String
  | .user _ => "message"
  | .reasoning _ => "reasoning"
  | .message _ => "message"
  | .functionCall _ => "function_call"

/-- The `key` attribute, present on every item class. -/
def Item.key : Item → String
  | .user u => u.key
  | .reasoning r => r.key
  | .message m => m.key
  | .functionCall f => f.key

/-- Python `item.content += delta`; every item class has a `content` field. -/
def Item.appendContent (item : Item) (delta : String) : Item :=
  match item with
  | .user u => .user { u with content := u.content ++ delta }
  | .reasoning r => .reasoning { r with content := r.content ++ delta }
  | .message m => .message { m with content := m.content ++ delta }
  | .functionCall f => .functionCall { f with content := f.content ++ delta }

/-! JSON values, used for the `to_dict` serializations and update events. -/

/-- JSON-like value produced by the `to_dict` methods and sent to monitors. -/
inductive JVal where
  | jnull
  | jbool (b : Bool)
  | jnum (n : Nat)
  | jstr (s : String)
  | jarr (elems : List JVal)
  | jobj (fields : List (String × JVal))

/-- Serialization of the dynamic error field by `json` (bool or string). -/
def PyVal.toJ : PyVal → JVal
  | .pyBool b => .jbool b
  | .pyStr s => .jstr s

/-- UserMessage.to_dict (datamodel.py lines 61-69). -/
def UserMessage.to_dict (u : UserMessage) : JVal :=
  .jobj [("key", .jstr u.key), ("type", .jstr "message"),
         ("created_at", .jstr u.created_at), ("role", .jstr u.role),
         ("content", .jstr u.content), ("model", .jstr u.model)]

/-- AssistentReasoning.to_dict (datamodel.py lines 22-29). -/
def AssistentReasoning.to_dict (r : AssistentReasoning) : JVal :=
  .jobj [("key", .jstr r.key), ("type", .jstr "reasoning"),
         ("created_at", .jstr r.created_at), ("content", .jstr r.content),
         ("status", .jstr r.status)]

/-- AssistentMessage.to_dict (datamodel.py lines 41-49). -/
def AssistentMessage.to_dict (m : AssistentMessage) : JVal :=
  .jobj [("key", .jstr m.key), ("type", .jstr "message"),
         ("created_at", .jstr m.created_at), ("status", .jstr m.status),
         ("role", .jstr m.role), ("content", .jstr m.content)]

/-- FunctionCall.to_dict (datamodel.py lines 84-94). -/
def FunctionCall.to_dict (f : FunctionCall) : JVal :=
  .jobj [("type", .jstr "function_call"), ("key", .jstr f.key),
         ("created_at", .jstr f.created_at), ("status", .jstr f.status),
         ("name", .jstr f.name), ("arguments", .jstr f.arguments),
         ("content", .jstr f.content), ("error", f.error.toJ)]

/-- Dispatch of `item.to_dict()` over the item union. -/
def Item.to_dict : Item → JVal
  | .user u => u.to_dict
  | .reasoning r => r.to_dict
  | .message m => m.to_dict
  | .functionCall f => f.to_dict

/-- Exchange (datamodel.py): ordered item list and the advisory flag. -/
structure Exchange where
  items : List Item := []
  completed : Bool := false
deriving DecidableEq, Repr

/-- Exchange.get_last_item (datamodel.py lines 109-113): scan the items in
reverse and return the first one whose `type` literal matches. -/
def Exchange.get_last_item (ex : Exchange) (item_type : String) : Option Item :=
  ex.items.reverse.find? (fun item => item.type == item_type)

/-- Conversation (datamodel.py): id, instructions, creation time, exchanges.
Monitors and background tasks are modelled at the service layer. -/
structure Conversation where
  conversation_id : String
  instructions : String
  created_at : String
  exchanges : List Exchange := []
deriving DecidableEq, Repr

/-- Conversation.get_model (datamodel.py lines 129-137): the model of the most
recent UserMessage, scanning exchanges and items newest-first. -/
def Conversation.get_model (c : Conversation) : Option String :=
  (c.exchanges.reverse.flatMap (fun ex => ex.items.reverse)).findSome?
    (fun item => match item with
      | .user u => some u.model
      | _ => none)

/-! ## Update events (service.py) -/

/-- The `item.delta` update event. -/
def itemDeltaEvent (key delta : String) : JVal :=
  .jobj [("type", .jstr "item.delta"), ("key", .jstr key), ("delta", .jstr delta)]

/-- The `item.updated` update event. -/
def itemUpdatedEvent (item : Item) : JVal :=
  .jobj [("type", .jstr "item.updated"), ("item", item.to_dict)]

/-- The `item.appended` update event. -/
def itemAppendedEvent (item : Item) : JVal :=
  .jobj [("type", .jstr "item.appended"), ("item", item.to_dict)]

/-- The `chat.mounted` event sent by the websocket handler after attach. -/
def chatMountedEvent (conversation_id : String) (models : List String) : JVal :=
  .jobj [("type", .jstr "chat.mounted"), ("conversation_id", .jstr conversation_id),
         ("models", .jarr (models.map .jstr))]

/-! ## Broadcast fan-out (`service.py`, `send_update`, lines 601-604)

`send_update` delivers an event to every monitor with

  `async with asyncio.TaskGroup() as tg:`
  `  for monitor in conversation.monitors:`
  `    tg.create_task(monitor(event))`

`asyncio.TaskGroup` semantics: when one task finishes with an exception, the
group cancels every sibling task that has not yet completed and, on exit,
re-raises the failure as an `ExceptionGroup` out of `send_update` itself.
The model below runs each monitor callback as one atomic unit in creation
order; a raising monitor makes the group cancel the still-unfinished
siblings (the adversarial schedule, in which the later siblings had not run
yet), and the second component records whether `send_update` itself raises.
Whether a particular sibling manages to finish before cancellation is
schedule-dependent; that `send_update` raises whenever any monitor raised is
schedule-independent. -/

/-- Outcome of one monitor callback when invoked with an event. -/
inductive MonitorBehavior where
  | succeeds
  | raises
deriving DecidableEq, Repr

/-- Fan-out of one event over the monitor list. First component: for every
monitor, whether the event was delivered to it (the callback ran to
completion). Second component: whether `send_update` raises an
ExceptionGroup to its caller. -/
def send_update_run : List MonitorBehavior → List Bool × Bool
  | [] => ([], false)
  | .succeeds :: rest =>
      let r := send_update_run rest
      (true :: r.1, r.2)
  | .raises :: rest =>
      (false :: rest.map (fun _ => false), true)

/-! ## Conversation registry (`service.py`, `create_conversation`,
`get_conversation`, lines 498-516) and websocket attach
(`handler_web.py`, `ws_conversation`, lines 44-56) -/

/-- In-memory registry of live conversations (`self.Conversations`). -/
structure ServiceState where
  conversations : List (String × Conversation) := []
deriving DecidableEq, Repr

/-- create_conversation (service.py lines 498-509): allocates a fresh id and
registers a new conversation under it. The uuid generator is external; the
fresh id is a parameter, and the collision loop means the function only
completes with an id not already registered (the parameter stands for the
first generated id that misses). -/
def create_conversation (st : ServiceState) (fresh_id : String)
    (created_at : String) (instructions : String) : ServiceState × Conversation :=
  let conversation : Conversation :=
    { conversation_id := fresh_id, instructions := instructions,
      created_at := created_at, exchanges := [] }
  ({ st with conversations := st.conversations ++ [(fresh_id, conversation)] },
   conversation)

/-- get_conversation (service.py lines 512-516):

  `conversation = self.Conversations.get(conversation_id)`
  `if conversation is None and create:`
  `  conversation = await self.create_conversation(conversation_id)`

`create_conversation` is declared as `async def create_conversation(self)` —
it accepts no positional argument beyond `self` — so the call
`self.create_conversation(conversation_id)` raises
`TypeError: create_conversation() takes 1 positional argument but 2 were
given` before any conversation is created. -/
def get_conversation (st : ServiceState) (conversation_id : String)
    (create : Bool) : Except PyError (Option Conversation) :=
  match st.conversations.lookup conversation_id with
  | some conversation => .ok (some conversation)
  | none =>
      if create then
        .error (.typeError
          "create_conversation() takes 1 positional argument but 2 were given")
      else
        .ok none

/-- ws_conversation attach flow for a request that carries a
`conversation_id` query parameter (handler_web.py lines 44-56): resolve the
conversation with create-on-miss, then send the `chat.mounted` event. An
exception from `get_conversation` propagates out of the handler before the
websocket is prepared, so no event is delivered. -/
def ws_conversation_attach (st : ServiceState) (conversation_id : String)
    (models : List String) : Except PyError JVal := do
  let resolved ← get_conversation st conversation_id true
  match resolved with
  | some conversation =>
      .ok (chatMountedEvent conversation.conversation_id models)
  | none =>
      -- `conversation.conversation_id` on None raises AttributeError;
      -- unreachable in the source because the create branch always assigns.
      .error (.typeError "NoneType object has no attribute conversation_id")

/-! ## Full snapshot (`service.py`, `send_full_update`, lines 607-625) -/

/-- Items collected by send_full_update (service.py lines 616-620): the loop
iterates every exchange and every item; its `match item.__class__:` has the
single arm `case UserMessage:`, and a bare name in a Python `case` clause is
a capture pattern that matches any subject (it rebinds the name rather than
comparing against the class), so `item.to_dict()` is appended for every item
of every exchange, in order. -/
def send_full_update_items (c : Conversation) : List JVal :=
  c.exchanges.flatMap (fun ex => ex.items.map Item.to_dict)

/-- The single `update.full` event built and delivered by send_full_update. -/
def send_full_update_event (c : Conversation) : JVal :=
  .jobj [("type", .jstr "update.full"),
         ("conversation_id", .jstr c.conversation_id),
         ("created_at", .jstr c.created_at),
         ("items", .jarr (send_full_update_items c))]

/-- send_full_update delivery: exactly one event is attempted; the
`try/except` around the monitor call catches and logs a monitor failure, so
the function never raises regardless of the monitor behaviour. -/
def send_full_update (c : Conversation) (monitor : MonitorBehavior) :
    List JVal × Bool :=
  match monitor with
  | .succeeds => ([send_full_update_event c], false)
  | .raises => ([send_full_update_event c], false)

/-- Specification-side serialization of a full snapshot, following the words
of the spec (`sendFullSnapshot` emits all items collected in exchange order,
every variant): used only to compare against `send_full_update_items`. -/
def spec_full_snapshot_items (c : Conversation) : List JVal :=
  (c.exchanges.flatMap (fun ex => ex.items)).map Item.to_dict

/-! ## Provider selection (`service.py`, `with_provider` lines 519-534 and
`task_chat_request` lines 576-578; cached catalogs from
`provider_abc.py`, `get_models`, lines 23-53) -/

/-- A provider adapter as seen by selection: its base url and the cached
model catalog (`self.Models` ids, filled by `get_models`). -/
structure Provider where
  url : String
  models : List String
deriving DecidableEq, Repr

/-- with_provider (service.py lines 519-534): `provider = self.Providers[0]`.
The provider is always the first entry of the provider list; `[0]` on an
empty list raises IndexError. The model plays no role, no catalog is
consulted, and no randomness is involved (the rest of the body only manages
the concurrency semaphore and a debug printing task). -/
def with_provider_select : List Provider → Except PyError Provider
  | [] => .error .indexError
  | p :: _ => .ok p

/-- task_chat_request (service.py lines 576-578): enters `with_provider` and
delegates to the chosen adapter. The conversation (and hence its resolved
model) is not consulted for the choice. -/
def task_chat_request_provider (providers : List Provider)
    (_c : Conversation) : Except PyError Provider :=
  with_provider_select providers

/-- Specification-side matching set, following the words of the spec: the
adapters whose cached model catalog contains the requested model. Used only
to compare against the selection the source makes. -/
def spec_matching_providers (providers : List Provider) (model : String) :
    List Provider :=
  providers.filter (fun p => p.models.contains model)

/-! ## Ping tool (`tool_ping.py`) -/

/-- Character allow-list of the target sanitizer (tool_ping.py lines 36-40):
`c.isalnum() or c in ".-:"`. `Char.isAlphanum` matches the ASCII range of
the Python predicate; the inputs of interest here are ASCII. -/
def pingAllowedChar (c : Char) : Bool :=
  c.isAlphanum || c == '.' || c == '-' || c == ':'

/-- sanitize of the ping target (tool_ping.py lines 38-40):
`"".join(c for c in target if c.isalnum() or c in ".-:")`, the join of the
kept characters in order, modelled as the same left fold. -/
def sanitize_target (target : String) : String :=
  target.data.foldl (fun acc c => if pingAllowedChar c then acc.push c else acc) ""

/-- Outcome of `json.loads(function_call.arguments)` followed by
`arguments.get("target")` — the standard-library parser is external, so its
result is an input of the embedded tool. -/
inductive ArgsParse where
  | parseFails
  | parsed (target : Option String)
deriving DecidableEq, Repr

/-- Validation phase of tool_ping (tool_ping.py lines 20-47), everything up
to launching the subprocess. Returns the item after validation and, when
validation passed, the sanitized target the ping command would be run with
(`none` means the tool returned without executing the underlying operation).

Every failure arm mirrors the source pattern

  `function_call.error = "<descriptive message>"`
  `function_call.error = True`

two successive assignments to the same dynamically-typed attribute: the
message string is immediately overwritten by `True`, and `content` is never
touched, so no field of the returned item retains the message. -/
def tool_ping_validate (parse : ArgsParse) (fc : FunctionCall) :
    FunctionCall × Option String :=
  match parse with
  | .parseFails =>
      let fc1 := { fc with error := .pyStr "Exception occurred while parsing arguments." }
      let fc2 := { fc1 with error := .pyBool true }
      (fc2, none)
  | .parsed target =>
      -- `if not target:` — absent or empty string is falsy
      if target.getD "" = "" then
        let fc1 := { fc with error := .pyStr "Target is required" }
        let fc2 := { fc1 with error := .pyBool true }
        (fc2, none)
      else
        let sanitized := sanitize_target (target.getD "")
        if sanitized = "" then
          let fc1 := { fc with error := .pyStr "Invalid target specified" }
          let fc2 := { fc1 with error := .pyBool true }
          (fc2, none)
        else
          (fc, some sanitized)

/-! ## Tool-call dispatch (`service.py`, `task_function_call`, lines 632-671)

The body of the `ping` arm iterates the tool generator; the behaviour of the
tool (which item states it yields at each progress step, in which state it
leaves the item, and whether it raises) is external input, abstracted by
`ToolRun`. The states refer to the item after `status` was set to
`executing`. Broadcasts themselves are modelled as succeeding (monitor
failures are the subject of the broadcast embedding above). -/

/-- Behaviour of one run of the dispatched tool generator. -/
inductive ToolRun where
  /-- The generator completes; `yieldStates` are the item states broadcast at
  each progress yield and `final` the item state when the generator ends. -/
  | completes (yieldStates : List FunctionCall) (final : FunctionCall)
  /-- The generator (or a broadcast inside the loop) raises; `yieldStates`
  are the states broadcast before the raise and `atRaise` the item state at
  the moment the exception reaches the `except` clause. -/
  | raisesExc (yieldStates : List FunctionCall) (atRaise : FunctionCall)
deriving DecidableEq, Repr

/-- The generic message the `except` clause writes to the item content. -/
def genericExcMessage : String := "Generic exception occurred. Try again."

/-- The message written for a function name with no registered tool. -/
def unknownFunctionMessage (name : String) : String :=
  "Called unknown function \x27" ++ name ++ "\x27, no result available."

/-- Result of one `task_function_call` run. -/
structure TaskFCResult where
  /-- the item state when the task ends -/
  item : FunctionCall
  /-- every update event broadcast during the task, in order -/
  events : List JVal
  /-- exchanges appended to the conversation by the task -/
  exchangesAppended : List Exchange
  /-- background tasks scheduled by the task, by task function name -/
  scheduled : List String

/-- task_function_call (service.py lines 632-671): set `executing` and
broadcast; dispatch on the function name (`ping` runs the tool generator,
broadcasting the item at every yield; any other name writes the
unknown-function message and the error flag); an exception inside the `try`
writes the generic message and the error flag; the `finally` clause always
sets `finished`, broadcasts once more, appends a brand-new empty Exchange to
the conversation and schedules another `task_chat_request`. -/
def task_function_call (fc : FunctionCall) (run : ToolRun) : TaskFCResult :=
  let fcExecuting := { fc with status := "executing" }
  let startEvent := itemUpdatedEvent (.functionCall fcExecuting)
  let afterTry : FunctionCall × List JVal :=
    if fc.name = "ping" then
      match run with
      | .completes yieldStates final =>
          (final, yieldStates.map (fun s => itemUpdatedEvent (.functionCall s)))
      | .raisesExc yieldStates atRaise =>
          ({ atRaise with content := genericExcMessage, error := .pyBool true },
           yieldStates.map (fun s => itemUpdatedEvent (.functionCall s)))
    else
      ({ fcExecuting with content := unknownFunctionMessage fc.name,
                          error := .pyBool true }, [])
  let fcFinished := { afterTry.1 with status := "finished" }
  { item := fcFinished,
    events := startEvent :: afterTry.2 ++ [itemUpdatedEvent (.functionCall fcFinished)],
    exchangesAppended := [{ items := [], completed := false }],
    scheduled := ["task_chat_request"] }

/-! ## Adapter stream loops

Outer control flow of `chat_request` in the three adapters. The HTTP
response (status, content type, body lines) is external input. Lines arrive
already split; whether `json.loads` succeeds on a payload is recorded on the
line, since the standard-library parser is external. Each outcome function
returns the number of vendor events handed to the event handler, or the
exception that escapes the adapter. -/

/-- One line of the SSE body as read by `v1response.py` (lines 117-139):
a bare newline, a line without the `: ` separator, or a `key: value` field
line; for a `data` field, `parses` records whether `json.loads` accepts the
payload. -/
inductive RespLine where
  | blank
  | noSep (text : String)
  | dataField (payload : String) (parses : Bool)
  | eventField (name : String)
  | otherField (key : String) (rest : String)
deriving DecidableEq, Repr

/-- HTTP response handed to an adapter, generic over the line model. -/
structure HttpResponse (L : Type) where
  status : Nat
  content_type : String
  body : List L

/-- Line loop of `LLMChatProviderV1Response.chat_request` (v1response.py
lines 117-143): a blank line flushes the accumulated event block; a line
without `: ` logs a warning and returns; a `data` field runs `json.loads`
(raising `json.JSONDecodeError` out of the adapter on a malformed payload);
`event` and unknown fields are accumulated; a trailing unflushed block is
flushed at end of stream. `accNonempty` models `len(event) > 0`. -/
def v1response_lines : List RespLine → Bool → Nat → Except PyError Nat
  | [], accNonempty, n => .ok (if accNonempty then n + 1 else n)
  | .blank :: rest, accNonempty, n =>
      if accNonempty then v1response_lines rest false (n + 1)
      else v1response_lines rest false n
  | .noSep _ :: _, _, n => .ok n
  | .dataField _ parses :: rest, _, n =>
      if parses then v1response_lines rest true n
      else .error .jsonDecodeError
  | .eventField _ :: rest, _, n => v1response_lines rest true n
  | .otherField _ _ :: rest, _, n => v1response_lines rest true n

/-- chat_request outcome of the response-style adapter (v1response.py lines
104-143): a non-200 status is logged and the call returns normally having
processed nothing; on a 200 response
`assert response.content_type == "text/event-stream"` raises AssertionError
when the content type is not the streaming one; otherwise the line loop
runs. -/
def v1response_chat_outcome (resp : HttpResponse RespLine) :
    Except PyError Nat :=
  if resp.status ≠ 200 then .ok 0
  else if resp.content_type ≠ "text/event-stream" then .error .assertionError
  else v1response_lines resp.body false 0

/-- One line of the body as read by `v1chatcompletition.py` (lines 135-151)
and by the data/event loop of `v1messages.py` (lines 130-149), after utf-8
decode and `rstrip`. -/
inductive CCLine where
  | empty
  | dataLine (payload : String) (parses : Bool)
  | eventLine (name : String)
  | otherLine (text : String)
deriving DecidableEq, Repr

/-- Line loop of `LLMChatProviderV1ChatCompletition.chat_request`
(v1chatcompletition.py lines 135-151): empty and non-`data: ` lines are
skipped; the `[DONE]` sentinel finalizes and breaks; a payload rejected by
`json.loads` is logged and skipped, the loop continuing; an accepted payload
is handed to the chunk handler. An `event: ` line carries no `data: `
marker, so it falls into the skipped case. -/
def v1cc_lines : List CCLine → Nat → Nat
  | [], n => n
  | .empty :: rest, n => v1cc_lines rest n
  | .dataLine payload parses :: rest, n =>
      if payload = "[DONE]" then n
      else if parses then v1cc_lines rest (n + 1)
      else v1cc_lines rest n
  | .eventLine _ :: rest, n => v1cc_lines rest n
  | .otherLine _ :: rest, n => v1cc_lines rest n

/-- chat_request outcome of the chat-completion-style adapter
(v1chatcompletition.py lines 123-151): same status and content-type guards
as the response-style adapter, then the line loop, which has no raising
path. -/
def v1cc_chat_outcome (resp : HttpResponse CCLine) : Except PyError Nat :=
  if resp.status ≠ 200 then .ok 0
  else if resp.content_type ≠ "text/event-stream" then .error .assertionError
  else .ok (v1cc_lines resp.body 0)

/-- Line loop of `LLMChatProviderV1Messages.chat_request` (v1messages.py
lines 130-149): `event: ` lines record the current event type; `data: `
lines parse the payload (a rejected payload is logged and skipped, the loop
continuing) and hand it to the event handler together with the recorded
event type — a `data: ` line arriving before any `event: ` line reads the
unbound local `event_type` and raises NameError. -/
def v1messages_lines : List CCLine → Option String → Nat → Except PyError Nat
  | [], _, n => .ok n
  | .empty :: rest, eventType, n => v1messages_lines rest eventType n
  | .eventLine name :: rest, _, n => v1messages_lines rest (some name) n
  | .dataLine payload parses :: rest, eventType, n =>
      if payload = "[DONE]" then .ok n
      else if parses then
        match eventType with
        | none => .error .nameError
        | some _ => v1messages_lines rest eventType (n + 1)
      else v1messages_lines rest eventType n
  | .otherLine _ :: rest, eventType, n => v1messages_lines rest eventType n

/-- chat_request outcome of the message-block-style adapter (v1messages.py
lines 114-149): same status and content-type guards, then the line loop. -/
def v1messages_chat_outcome (resp : HttpResponse CCLine) :
    Except PyError Nat :=
  if resp.status ≠ 200 then .ok 0
  else if resp.content_type ≠ "text/event-stream" then .error .assertionError
  else v1messages_lines resp.body none 0

/-! ## Delta-event handling (`v1response.py`, `_on_llm_event`, lines
374-416, and `v1messages.py`, `_on_llm_event`, lines 246-253)

In the source the item returned by `get_last_item` is mutated in place; here
the mutation is applied to the last item of the matching type, which is the
one `get_last_item` returns. -/

/-- Replace the first item (from the front) whose `type` matches, applying
`f`; helper for the from-the-rear update. -/
def replaceFirstOfType : List Item → String → (Item → Item) → List Item
  | [], _, _ => []
  | item :: rest, item_type, f =>
      if item.type == item_type then f item :: rest
      else item :: replaceFirstOfType rest item_type f

/-- In-place mutation of the item `get_last_item` returns: apply `f` to the
last item of the given type. -/
def updateLastItem (items : List Item) (item_type : String) (f : Item → Item) :
    List Item :=
  (replaceFirstOfType items.reverse item_type f).reverse

/-- The `data` payload of a v1response delta event: the `item_id` and
`delta` keys, each possibly absent. -/
structure DeltaData where
  item_id : Option String := none
  delta : Option String := none
deriving DecidableEq, Repr

/-- Handler arm for `response.reasoning_text.delta` and
`response.output_text.delta` (v1response.py lines 374-416); the two arms are
identical up to the searched item type (`reasoning` / `message`). With a
matching open item, `event[\x27data\x27][\x27delta\x27]` is read (KeyError
if the key is absent), appended to the item content and broadcast as an
`item.delta` event. With no matching item, an empty delta with no item id is
the observed miss-fired vendor event and is ignored; anything else logs a
warning; both leave the exchange untouched and return normally. -/
def v1response_text_delta (ex : Exchange) (item_type : String) (d : DeltaData) :
    Except PyError (Exchange × List JVal) :=
  match ex.get_last_item item_type with
  | some item =>
      match d.delta with
      | none => .error .keyError
      | some delta =>
          .ok ({ ex with items :=
                   (updateLastItem ex.items item_type (fun it => it.appendContent delta)) },
               [itemDeltaEvent item.key delta])
  | none =>
      if d.item_id.getD "" == "" && ((d.delta.getD "").trim.length == 0) then
        .ok (ex, [])
      else
        .ok (ex, [])

/-- The `delta` object of a v1messages `content_block_delta` event. -/
structure MsgDeltaData where
  delta_type : Option String := none
  text : Option String := none
  thinking : Option String := none
  fragment_json : Option String := none
deriving DecidableEq, Repr

/-- Handler arm for `content_block_delta` (v1messages.py lines 228-281):
with no active content block the event logs a warning and returns, leaving
the exchange untouched; with an active block the delta is applied to that
block (identified by key) when the delta type matches the block class, and
ignored otherwise. -/
def v1messages_content_block_delta (currentBlock : Option Item) (ex : Exchange)
    (d : MsgDeltaData) : Except PyError (Exchange × List JVal) :=
  match currentBlock with
  | none => .ok (ex, [])
  | some item =>
      match d.delta_type with
      | some "text_delta" =>
          match item with
          | .message _ =>
              let text := d.text.getD ""
              .ok ({ ex with items := ex.items.map (fun it =>
                       if it.key == item.key then it.appendContent text else it) },
                   [itemDeltaEvent item.key text])
          | _ => .ok (ex, [])
      | some "thinking_delta" =>
          match item with
          | .reasoning _ =>
              let thinking := d.thinking.getD ""
              .ok ({ ex with items := ex.items.map (fun it =>
                       if it.key == item.key then it.appendContent thinking else it) },
                   [itemDeltaEvent item.key thinking])
          | _ => .ok (ex, [])
      | some "input_json_delta" =>
          match item with
          | .functionCall _ =>
              let fragment_json := d.fragment_json.getD ""
              .ok ({ ex with items := ex.items.map (fun it =>
                       if it.key == item.key then
                         match it with
                         | .functionCall f =>
                             .functionCall { f with arguments := f.arguments ++ fragment_json }
                         | other => other
                       else it) },
                   [])
          | _ => .ok (ex, [])
      | _ => .ok (ex, [])

/-! ## Concrete fixtures used by counterexamples and witnesses -/

/-- A concrete user message item. -/
def fixUser : UserMessage :=
  { role := "user", content := "hello", model := "m1",
    key := "user-message-k1", created_at := "2026-01-01T00:00:00" }

/-- A conversation whose resolved model is `model-b`. -/
def fixConvModelB : Conversation :=
  { conversation_id := "conversation-b", instructions := "inst",
    created_at := "2026-01-01T00:00:00",
    exchanges := [{ items := [.user { fixUser with model := "model-b" }],
                    completed := false }] }

/-- A conversation whose resolved model is `model-c`. -/
def fixConvModelC : Conversation :=
  { conversation_id := "conversation-c", instructions := "inst",
    created_at := "2026-01-01T00:00:00",
    exchanges := [{ items := [.user { fixUser with model := "model-c" }],
                    completed := false }] }

/-- A provider whose cached catalog holds only `model-a`. -/
def fixProvA : Provider := { url := "http://sp01:8888/", models := ["model-a"] }

/-- A provider whose cached catalog holds only `model-b`. -/
def fixProvB : Provider := { url := "http://sp02:8888/", models := ["model-b"] }

/-- A concrete completed function-call item named `ping`. -/
def fixPingCall : FunctionCall :=
  { call_id := "call-1", name := "ping",
    arguments := "\x7b\"target\": \"example.com\"\x7d", status := "completed",
    content := "", error := .pyBool false, key := "fc-k1",
    created_at := "2026-01-01T00:00:02" }

/-- A concrete completed function-call item with an unregistered name. -/
def fixOtherCall : FunctionCall :=
  { call_id := "call-2", name := "frobnicate", arguments := "\x7b\x7d",
    status := "completed", content := "", error := .pyBool false,
    key := "fc-k2", created_at := "2026-01-01T00:00:03" }

/-- An exchange containing no reasoning and no message items. -/
def fixExchangeFC : Exchange :=
  { items := [.functionCall fixPingCall], completed := false }

/-- Shell metacharacters that must not survive ping-target sanitization
(39 is the apostrophe, 96 the backquote). -/
def shellMetaChars : List Char :=
  [';', '|', '&', '$', '<', '>', '(', ')', '[', ']', ' ', '/',
   '\\', '"', '~', '*', '?', '!', '#', '\n', '\t',
   Char.ofNat 39, Char.ofNat 96, Char.ofNat 123, Char.ofNat 125]

/-! ## Helper lemmas -/

/-- A list of the form `a :: l ++ [b]` always ends in `b`. -/
theorem getLast_cons_append_single {α : Type} (a b : α) (l : List α) :
    (a :: (l ++ [b])).getLast? = some b := by
  induction l generalizing a with
  | nil => rfl
  | cons x xs ih => rw [List.cons_append, List.getLast?_cons_cons]; exact ih x

/-- Appending the empty delta leaves any item unchanged. -/
theorem appendContent_empty (item : Item) : item.appendContent "" = item := by
  cases item <;> simp [Item.appendContent, String.append_empty]

/-- Applying the empty-delta append through `replaceFirstOfType` is the
identity. -/
theorem replaceFirstOfType_appendEmpty (l : List Item) (t : String) :
    replaceFirstOfType l t (fun it => it.appendContent "") = l := by
  induction l with
  | nil => rfl
  | cons x xs ih =>
      simp only [replaceFirstOfType]
      by_cases h : (x.type == t) = true
      · rw [if_pos h, appendContent_empty]
      · rw [if_neg h, ih]

/-- Updating the last item with the empty-delta append is the identity. -/
theorem updateLastItem_appendEmpty (l : List Item) (t : String) :
    updateLastItem l t (fun it => it.appendContent "") = l := by
  simp [updateLastItem, replaceFirstOfType_appendEmpty]

/-- The sanitizer fold equals appending the filtered characters. -/
theorem sanitize_fold_eq (l : List Char) (acc : String) :
    l.foldl (fun a c => if pingAllowedChar c then a.push c else a) acc =
      String.mk (acc.data ++ l.filter pingAllowedChar) := by
  induction l generalizing acc with
  | nil => simp
  | cons c cs ih =>
      by_cases h : pingAllowedChar c = true
      · rw [List.foldl_cons, if_pos h, ih]
        simp [List.filter_cons, h]
      · rw [List.foldl_cons, if_neg h, ih]
        simp [List.filter_cons, h]

/-! ## Claim theorems -/

/-- C1: the claim states that every registered monitor receives each
broadcast event even when another monitor raises, and that a monitor
failure does not crash the conversation. On the source this fails:
`send_update` fans out with `asyncio.TaskGroup`, which cancels the
still-unfinished sibling deliveries when one monitor raises and re-raises
an ExceptionGroup out of `send_update` into the code path that produced the
event. With monitors `[raises, succeeds]` the succeeding monitor never
receives the event and the broadcast raises; with `[succeeds, raises]`
delivery happens but the broadcast still raises. -/
theorem c1_send_update_taskgroup_aborts :
    send_update_run [.raises, .succeeds] = ([false, false], true) ∧
    send_update_run [.succeeds, .raises] = ([true, false], true) :=
  ⟨rfl, rfl⟩

/-- C2: the claim states that attaching with an unknown `conversation_id`
creates the conversation and delivers `chat.mounted`. On the source this
fails: `get_conversation(. , create=True)` calls
`self.create_conversation(conversation_id)`, but `create_conversation` is
declared with no positional parameter, so Python raises TypeError, nothing
is created, and no `chat.mounted` event is sent. -/
theorem c2_attach_unknown_id_type_error :
    ws_conversation_attach { conversations := [] } "conversation-missing"
        ["model-a"] =
      .error (.typeError
        "create_conversation() takes 1 positional argument but 2 were given") :=
  rfl

/-- C5 counterexample: provider selection does not restrict to adapters
whose cached catalog contains the resolved model, and an unmatched model is
not a task failure. With providers `[fixProvA, fixProvB]` and a conversation
whose resolved model is `model-b`, the chat turn uses `fixProvA`, whose
catalog does not contain `model-b`; and for model `model-c`, which no
catalog contains, selection still succeeds instead of failing. -/
theorem c5_selection_ignores_catalog :
    fixConvModelB.get_model = some "model-b" ∧
    task_chat_request_provider [fixProvA, fixProvB] fixConvModelB = .ok fixProvA ∧
    fixProvA.models.contains "model-b" = false ∧
    fixConvModelC.get_model = some "model-c" ∧
    spec_matching_providers [fixProvA, fixProvB] "model-c" = [] ∧
    (task_chat_request_provider [fixProvA, fixProvB] fixConvModelC).isOk = true := by
  refine ⟨?_, rfl, ?_, ?_, ?_, rfl⟩ <;> decide

/-- C5 amended: the chat turn always uses the first provider of the
configured list, independent of the conversation and of its resolved model;
with an empty provider list the lookup raises IndexError. -/
theorem c5_first_provider_always (p : Provider) (ps : List Provider)
    (c c' : Conversation) :
    task_chat_request_provider (p :: ps) c = .ok p ∧
    task_chat_request_provider (p :: ps) c = task_chat_request_provider (p :: ps) c' ∧
    task_chat_request_provider ([] : List Provider) c = .error .indexError :=
  ⟨rfl, rfl, rfl⟩

/-- C7: the claim states that a parse failure of the accumulated arguments
sets the error flag and records a descriptive message on the item. On the
source only the flag survives: the message is assigned to the same
dynamically-typed `error` attribute and immediately overwritten by `True`,
so the returned item carries `error = True`, its content is untouched, and
the descriptive message is recorded nowhere; the tool does return without
executing the underlying ping operation. -/
theorem c7_parse_failure_message_lost (fc : FunctionCall) :
    tool_ping_validate .parseFails fc = ({ fc with error := .pyBool true }, none) ∧
    (tool_ping_validate .parseFails fc).1.content = fc.content :=
  ⟨rfl, rfl⟩

/-- C9: the sanitized ping target is exactly the subsequence of characters
that are alphanumeric or one of `.`, `-`, `:`; the worked example
`8.8.8.8; rm -rf /` sanitizes to `8.8.8.8rm-rf`; and no shell metacharacter
survives sanitization. -/
theorem c9_sanitize_target (t : String) :
    sanitize_target t = String.mk (t.data.filter pingAllowedChar) ∧
    sanitize_target "8.8.8.8; rm -rf /" = "8.8.8.8rm-rf" ∧
    (∀ c, c ∈ (sanitize_target t).data → c ∉ shellMetaChars) := by
  refine ⟨?_, ?_, ?_⟩
  · simpa using sanitize_fold_eq t.data ""
  · decide
  · intro c hc hmem
    have hall : c ∈ t.data.filter pingAllowedChar := by
      have h := sanitize_fold_eq t.data ""
      simpa [sanitize_target, h] using hc
    have hallowed : pingAllowedChar c = true := (List.mem_filter.mp hall).2
    have hfalse : ∀ m ∈ shellMetaChars, pingAllowedChar m = false := by decide
    rw [hfalse c hmem] at hallowed
    exact Bool.false_ne_true hallowed

/-- C9 witness: a concrete character kept by the sanitizer is not a shell
metacharacter. -/
theorem c9_sanitize_target_witness :
    '8' ∈ (sanitize_target "8.8").data ∧ '8' ∉ shellMetaChars :=
  ⟨by decide, (c9_sanitize_target "8.8").2.2 '8' (by decide)⟩

/-- C10: dispatching a FunctionCall whose name is not `ping` does not raise:
the item content becomes the unknown-function message naming the function,
the error flag is set, and the usual finalization runs — the item ends
`finished` and exactly the executing and finished states are broadcast. -/
theorem c10_unknown_function_dispatch (fc : FunctionCall) (run : ToolRun)
    (h : fc.name ≠ "ping") :
    (task_function_call fc run).item =
      { fc with status := "finished",
                content := unknownFunctionMessage fc.name,
                error := .pyBool true } ∧
    (task_function_call fc run).events =
      [itemUpdatedEvent (.functionCall { fc with status := "executing" }),
       itemUpdatedEvent (.functionCall (task_function_call fc run).item)] := by
  constructor <;> simp [task_function_call, h]

/-- C10 witness: the theorem applied to a concrete unknown-function item. -/
theorem c10_unknown_function_dispatch_witness :
    (task_function_call fixOtherCall (.completes [] fixOtherCall)).item =
      { fixOtherCall with status := "finished",
                          content := unknownFunctionMessage "frobnicate",
                          error := .pyBool true } :=
  (c10_unknown_function_dispatch fixOtherCall (.completes [] fixOtherCall)
    (by decide)).1

/-- C3: sending a full snapshot emits exactly one `update.full` event
carrying the conversation id and creation time, and an items list holding
the serialization of every item of every exchange — all variants — in
exchange order (the bare-name `case UserMessage:` is a Python capture
pattern matching every item class, so the loop appends every item); a
failing monitor is caught, so the send never raises. -/
theorem c3_snapshot_all_items (c : Conversation) :
    send_full_update_event c =
      .jobj [("type", .jstr "update.full"),
             ("conversation_id", .jstr c.conversation_id),
             ("created_at", .jstr c.created_at),
             ("items", .jarr (send_full_update_items c))] ∧
    send_full_update_items c = spec_full_snapshot_items c ∧
    (∀ mb, send_full_update c mb = ([send_full_update_event c], false)) := by
  refine ⟨rfl, ?_, ?_⟩
  · rw [send_full_update_items, spec_full_snapshot_items]
    induction c.exchanges with
    | nil => rfl
    | cons ex rest ih =>
        rw [List.flatMap_cons, List.flatMap_cons, List.map_append, ih]
  · intro mb; cases mb <;> rfl

/-- C4: for every dispatched FunctionCall task and every behaviour of the
named tool (completion or a raised exception), the item always ends with
status `finished`, the last broadcast is the `item.updated` event of that
final state, a brand-new empty Exchange is appended and another
`task_chat_request` is scheduled; and when the dispatched `ping` tool
raises, the error flag is set together with the generic error message. -/
theorem c4_tool_dispatch_always_finalizes (fc : FunctionCall) (run : ToolRun) :
    (task_function_call fc run).item.status = "finished" ∧
    (task_function_call fc run).events.getLast? =
      some (itemUpdatedEvent (.functionCall (task_function_call fc run).item)) ∧
    (task_function_call fc run).exchangesAppended =
      [{ items := [], completed := false }] ∧
    (task_function_call fc run).scheduled = ["task_chat_request"] ∧
    (fc.name = "ping" → ∀ yieldStates atRaise,
      run = .raisesExc yieldStates atRaise →
        (task_function_call fc run).item.error = .pyBool true ∧
        (task_function_call fc run).item.content = genericExcMessage) := by
  refine ⟨?_, ?_, rfl, rfl, ?_⟩
  · by_cases h : fc.name = "ping" <;> cases run <;> simp [task_function_call, h]
  · exact getLast_cons_append_single _ _ _
  · intro hname yieldStates atRaise hrun
    subst hrun
    constructor <;> simp [task_function_call, hname]

/-- C4 witness: the theorem applied to a concrete ping call whose tool run
raises after zero progress yields. -/
theorem c4_tool_dispatch_always_finalizes_witness :
    (task_function_call fixPingCall
        (.raisesExc [] { fixPingCall with status := "executing" })).item.status =
      "finished" ∧
    (task_function_call fixPingCall
        (.raisesExc [] { fixPingCall with status := "executing" })).item.error =
      .pyBool true := by
  have h := c4_tool_dispatch_always_finalizes fixPingCall
    (.raisesExc [] { fixPingCall with status := "executing" })
  exact ⟨h.1, (h.2.2.2.2 rfl [] { fixPingCall with status := "executing" } rfl).1⟩

/-- C6 counterexample: the claim states that a non-streaming response
content type ends the adapter call by returning normally. On the source a
200 response whose content type is not `text/event-stream` hits
`assert response.content_type == "text/event-stream"` and the
AssertionError propagates past the adapter boundary — in all three
adapters. -/
theorem c6_content_type_assertion_escapes :
    v1response_chat_outcome
        { status := 200, content_type := "application/json", body := [] } =
      .error .assertionError ∧
    v1cc_chat_outcome
        { status := 200, content_type := "application/json", body := [] } =
      .error .assertionError ∧
    v1messages_chat_outcome
        { status := 200, content_type := "application/json", body := [] } =
      .error .assertionError :=
  ⟨rfl, rfl, rfl⟩

/-- C6 amended: in every adapter a non-success HTTP status is logged and
ends the call by returning normally with nothing processed, while a 200
response with a non-streaming content type raises an AssertionError past
the adapter boundary. A stream line without the `: ` separator ends the
response-style call normally, leaving the remaining lines unprocessed, but
a data payload rejected by the JSON parser raises there; the
chat-completion-style and message-block-style adapters log a rejected JSON
payload and continue with the next line. -/
theorem c6_adapter_failure_semantics
    (rr : HttpResponse RespLine) (rc rm : HttpResponse CCLine) :
    (rr.status ≠ 200 → v1response_chat_outcome rr = .ok 0) ∧
    (rc.status ≠ 200 → v1cc_chat_outcome rc = .ok 0) ∧
    (rm.status ≠ 200 → v1messages_chat_outcome rm = .ok 0) ∧
    (rr.status = 200 → rr.content_type ≠ "text/event-stream" →
      v1response_chat_outcome rr = .error .assertionError) ∧
    (rc.status = 200 → rc.content_type ≠ "text/event-stream" →
      v1cc_chat_outcome rc = .error .assertionError) ∧
    (rm.status = 200 → rm.content_type ≠ "text/event-stream" →
      v1messages_chat_outcome rm = .error .assertionError) ∧
    (∀ t rest accNonempty n,
      v1response_lines (.noSep t :: rest) accNonempty n = .ok n) ∧
    (∀ payload rest n, payload ≠ "[DONE]" →
      v1cc_lines (.dataLine payload false :: rest) n = v1cc_lines rest n) ∧
    (∀ payload rest eventType n, payload ≠ "[DONE]" →
      v1messages_lines (.dataLine payload false :: rest) eventType n =
        v1messages_lines rest eventType n) ∧
    (∀ payload rest accNonempty n,
      v1response_lines (.dataField payload false :: rest) accNonempty n =
        .error .jsonDecodeError) := by
  refine ⟨?_, ?_, ?_, ?_, ?_, ?_, ?_, ?_, ?_, ?_⟩
  · intro h; simp [v1response_chat_outcome, h]
  · intro h; simp [v1cc_chat_outcome, h]
  · intro h; simp [v1messages_chat_outcome, h]
  · intro h h2; simp [v1response_chat_outcome, h, h2]
  · intro h h2; simp [v1cc_chat_outcome, h, h2]
  · intro h h2; simp [v1messages_chat_outcome, h, h2]
  · intro t rest accNonempty n; rfl
  · intro payload rest n h; simp [v1cc_lines, h]
  · intro payload rest eventType n h; simp [v1messages_lines, h]
  · intro payload rest accNonempty n; simp [v1response_lines]

/-- C6 witness: the amended behaviours at concrete responses — a 500
response returns normally, a malformed line stops the response-style loop,
and a rejected JSON payload is skipped by the chat-completion loop. -/
theorem c6_adapter_failure_semantics_witness :
    v1response_chat_outcome
        { status := 500, content_type := "text/html", body := [] } = .ok 0 ∧
    v1response_lines [.noSep "garbage"] false 0 = .ok 0 ∧
    v1cc_lines [.dataLine "not-json" false, .dataLine "x" true] 0 =
      v1cc_lines [.dataLine "x" true] 0 := by
  have h := c6_adapter_failure_semantics
    { status := 500, content_type := "text/html", body := [] }
    { status := 200, content_type := "text/event-stream", body := [] }
    { status := 200, content_type := "text/event-stream", body := [] }
  exact ⟨h.1 (by decide), h.2.2.2.2.2.2.1 "garbage" [] false 0,
    h.2.2.2.2.2.2.2.1 "not-json" [.dataLine "x" true] 0 (by decide)⟩

/-- C8: a delta event with no matching open item of its kind, in the
response-style adapter (`response.reasoning_text.delta`,
`response.output_text.delta`) as well as in the message-block-style adapter
(`content_block_delta` with no active block), returns normally, emits
nothing and leaves the exchange untouched; and an empty delta carrying no
item identifier returns normally and leaves the exchange items unchanged
whether or not an open item exists. -/
theorem c8_spurious_delta_noop (ex : Exchange) (d : DeltaData)
    (dm : MsgDeltaData) :
    (ex.get_last_item "reasoning" = none →
      v1response_text_delta ex "reasoning" d = .ok (ex, [])) ∧
    (ex.get_last_item "message" = none →
      v1response_text_delta ex "message" d = .ok (ex, [])) ∧
    (d.delta = some "" → ∀ item_type, ∃ events,
      v1response_text_delta ex item_type d = .ok (ex, events)) ∧
    v1messages_content_block_delta none ex dm = .ok (ex, []) := by
  refine ⟨?_, ?_, ?_, rfl⟩
  · intro h
    rw [v1response_text_delta, h]
    by_cases hm : (d.item_id.getD "" == "" && ((d.delta.getD "").trim.length == 0)) = true
    · rw [if_pos hm]
    · rw [if_neg hm]
  · intro h
    rw [v1response_text_delta, h]
    by_cases hm : (d.item_id.getD "" == "" && ((d.delta.getD "").trim.length == 0)) = true
    · rw [if_pos hm]
    · rw [if_neg hm]
  · intro hd item_type
    rw [v1response_text_delta]
    cases hlast : ex.get_last_item item_type with
    | none =>
        refine ⟨[], ?_⟩
        by_cases hm : (d.item_id.getD "" == "" && ((d.delta.getD "").trim.length == 0)) = true
        · rw [if_pos hm]
        · rw [if_neg hm]
    | some item =>
        refine ⟨[itemDeltaEvent item.key ""], ?_⟩
        rw [hd]
        simp [updateLastItem_appendEmpty]

/-- C8 witness: the theorem applied to a concrete exchange holding only a
function-call item, so no reasoning or message item matches, with the
observed spurious payload (empty item id, empty delta). -/
theorem c8_spurious_delta_noop_witness :
    v1response_text_delta fixExchangeFC "reasoning"
        { item_id := some "", delta := some "" } = .ok (fixExchangeFC, []) ∧
    v1messages_content_block_delta none fixExchangeFC { delta_type := some "text_delta" } =
      .ok (fixExchangeFC, []) := by
  have h := c8_spurious_delta_noop fixExchangeFC
    { item_id := some "", delta := some "" } { delta_type := some "text_delta" }
  exact ⟨h.1 (by decide), h.2.2.2⟩

end MdnMcp
